/-
Verification of the mldb computation-graph library (njtwomey/mldb).

This file gives a shallow embedding, in Lean 4, of the core evaluation
engine of mldb:

* `Backend` / `BackendInterface` behaviour (src/mldb/backends/base.py,
  src/mldb/backends/volatile_backend.py), abstracted over a store of
  persisted artifacts;
* the `NodeWrapper` data model with its `sources` / `keywords`
  properties (src/mldb/compgraph.py);
* the memoizing evaluator `compute_or_load_evaluation`
  (src/mldb/compgraph.py, lines 344-430), with an explicit state that
  records the in-process memoization cache, the persisted store, the
  set of held lock markers, and a trace of observable events
  (function invocations, existence checks, loads, saves, lock
  acquisition/release);
* the `ComputationGraph` registry operations `add_backend`,
  `set_default_backend` and `make_node`;
* the two `FileLock` implementations of the repository: the packaged
  flock-based one (src/mldb/locker.py) and the legacy
  `O_CREAT | O_EXCL` one (src/locker.py), over an explicit filesystem
  state.

Python exceptions are modelled with `Except`; Python `None` is the
value `PyVal.vnone`; the unbounded recursion of the Python evaluator is
modelled with explicit fuel (`EvalErr.fuelExhausted` plays the role of
a stack overflow, which real Python would hit on a cyclic graph).
-/

import Mathlib

namespace Mldb

/-! ## Backends

`Backend` corresponds to `mldb.backends.base.Backend`: it pairs an
interface kind with the `cache_data` flag.  The behaviour of the
interface (`exists` / `load` / `save`) is captured by `BackendKind`:

* `volatile` is `VolatileInterface` (src/mldb/backends/volatile_backend.py):
  `exists()` is constantly `False`, `save` is a no-op and `load` raises;
* `persistent` stands for any of the file-system backends
  (json, pickle, ...): `exists` consults the store of saved artifacts,
  `save` writes the artifact under the node name and `load` reads it.
-/

inductive BackendKind where
  | volatile
  | persistent
deriving DecidableEq, Repr

structure Backend where
  kind : BackendKind
  cache_data : Bool
deriving DecidableEq, Repr

/-- `VolatileBackend()` (src/mldb/backends/volatile_backend.py, lines 24-26):
interface `VolatileInterface`, constructed with `cache_data=False`. -/
def VolatileBackend : Backend := ⟨BackendKind.volatile, false⟩

/-- A persistent backend constructed with the `Backend.__init__` default
`cache_data=True` (src/mldb/backends/base.py, line 164). -/
def PersistentBackend : Backend := ⟨BackendKind.persistent, true⟩

/-! ## Values and nodes

Python values flowing through the graph.  An argument of a node is an
arbitrary Python object; the evaluator only ever inspects whether it
`isinstance(value, NodeWrapper)`.  `PyVal.vnode` embeds the
`NodeWrapper` object itself (its name, wrapped function, backend and
keyword arguments), mirroring the fact that in Python the argument IS
the node object.  Wrapped functions are referenced by name (`FuncId`)
into a function environment. -/

abbrev FuncId := String

mutual

inductive PyVal where
  | vint (n : Int)
  | vstr (s : String)
  | vnone
  | vlist (xs : List PyVal)
  | vnode (nd : NodeRef)

/-- The data carried by a `NodeWrapper` (src/mldb/compgraph.py, lines
272-301): its `name`, `func`, `kwargs` and bound `backend`.  (The
back-reference to the owning graph plays no role in evaluation and is
omitted.) -/
inductive NodeRef where
  | mk (name : String) (func : FuncId) (backend : Backend)
       (kwargs : List (String × PyVal))

end

def NodeRef.name : NodeRef → String
  | .mk n _ _ _ => n

def NodeRef.func : NodeRef → FuncId
  | .mk _ f _ _ => f

def NodeRef.backend : NodeRef → Backend
  | .mk _ _ b _ => b

def NodeRef.kwargs : NodeRef → List (String × PyVal)
  | .mk _ _ _ kw => kw

/-- `isinstance(value, NodeWrapper)`. -/
def isNodeVal : PyVal → Bool
  | .vnode _ => true
  | _ => false

/-- `isinstance(value, NodeWrapper)`, returning the node when the test
succeeds. -/
def asNode : PyVal → Option NodeRef
  | .vnode nd => some nd
  | _ => none

/-- `NodeWrapper.sources` (src/mldb/compgraph.py, lines 318-322):
the keyword entries whose value is a `NodeWrapper`. -/
def NodeRef.sources (nd : NodeRef) : List (String × PyVal) :=
  nd.kwargs.filter (fun kv => isNodeVal kv.2)

/-- `NodeWrapper.keywords` (src/mldb/compgraph.py, lines 324-328):
the keyword entries whose value is not a `NodeWrapper`. -/
def NodeRef.keywords (nd : NodeRef) : List (String × PyVal) :=
  nd.kwargs.filter (fun kv => !isNodeVal kv.2)

/-! ## Evaluator state

The process-global state touched by `compute_or_load_evaluation`:

* `cache`: the memoization cache `compute_or_load_evaluation.cache`,
  an association list from node name to value (first binding wins,
  like a Python dict);
* `store`: the persisted artifacts, by node name (what the persistent
  backends' `save`/`load`/`exists` see);
* `locks`: the lock markers currently held in this process
  (`FileLock`s acquired and not yet released), by node name;
* `trace`: a log of the observable events, newest first.  The trace is
  instrumentation only: no code path reads it.
-/

inductive Event where
  | call (f : FuncId)
  | existsCheck (name : String)
  | loadEv (name : String)
  | saveEv (name : String)
  | lockAcq (name : String)
  | lockRel (name : String)
deriving DecidableEq, Repr

structure EvalState where
  cache : List (String × PyVal)
  store : List (String × PyVal)
  locks : List String
  trace : List Event

/-- A fresh process: empty cache, empty store, no locks held. -/
def initState : EvalState := ⟨[], [], [], []⟩

/-- A fresh process sharing an existing artifact store (the "second
process instance" of the spec's cache/storage-consistency property). -/
def freshProcess (store : List (String × PyVal)) : EvalState :=
  ⟨[], store, [], []⟩

/-- Association-list lookup, mirroring Python dict lookup. -/
def alookup {α : Type} (k : String) : List (String × α) → Option α
  | [] => none
  | (k', v) :: rest => if k' = k then some v else alookup k rest

/-- `backend_interface.exists()` for a node `name`:
`False` for the volatile interface, store membership for persistent
interfaces. -/
def backendExists (b : Backend) (name : String)
    (store : List (String × PyVal)) : Bool :=
  match b.kind with
  | .volatile => false
  | .persistent => (alookup name store).isSome

/-- Number of invocations of the wrapped function `f` recorded in a
trace. -/
def callCount (tr : List Event) (f : FuncId) : Nat :=
  (tr.filter (fun e => e = Event.call f)).length

/-! ## The evaluator

`compute_or_load_evaluation(name, func, backend, kwargs)`
(src/mldb/compgraph.py, lines 344-430), together with the inner
argument-resolution loop (lines 388-393).  Exceptions:

* `computationError`: `func(**inputs)` raised (line 398-401);
* `saveError` / `loadError`: `save`/`load` raised (lines 406-418);
* `lockHeld`: `FileLockExistsException` from acquiring the node's
  `FileLock` (the `with backend_interface.lock():` on line 387);
* `fuelExhausted`: fuel ran out (the Python analogue is a stack
  overflow on a cyclic graph).

The function environment `Env` gives the semantics of the wrapped
functions: `none` models the function raising.  The Python
`with`-statement semantics are modelled exactly: the lock is released
on every exit from the block, including exceptional ones, but not when
the acquisition itself failed. -/

inductive EvalErr where
  | computationError
  | saveError
  | loadError
  | lockHeld
  | fuelExhausted
deriving DecidableEq, Repr

structure Env where
  funcs : FuncId → List (String × PyVal) → Option PyVal

/-- `data is None`. -/
def isNone : PyVal → Bool
  | .vnone => true
  | _ => false

/-- Exiting the `with backend_interface.lock():` block:
`FileLock.release` drops the marker (src/mldb/locker.py, lines 65-75). -/
def releaseLock (name : String) (s : EvalState) : EvalState :=
  { s with locks := s.locks.erase name,
           trace := Event.lockRel name :: s.trace }

/-- The tail of `compute_or_load_evaluation` (lines 420-425):
`cache_data = hasattr(backend, "cache_data") and backend.cache_data;
if cache_data and data is not None: cache[name] = data; return data`. -/
def finishCache (nd : NodeRef) (data : PyVal) (s : EvalState) :
    Except EvalErr PyVal × EvalState :=
  if nd.backend.cache_data && !isNone data then
    (.ok data, { s with cache := (nd.name, data) :: s.cache })
  else
    (.ok data, s)

/-- The argument-resolution loop of `compute_or_load_evaluation`
(src/mldb/compgraph.py, lines 388-393): each keyword whose value is a
`NodeWrapper` is replaced by `value.evaluate()`; every other value is
passed through untouched; order is preserved.  The recursive
`value.evaluate()` call is abstracted as `recEval` (open recursion,
tied below in `computeOrLoad`). -/
def resolveInputsAux
    (recEval : NodeRef → EvalState → Except EvalErr PyVal × EvalState) :
    List (String × PyVal) → EvalState →
    Except EvalErr (List (String × PyVal)) × EvalState
  | [], s => (.ok [], s)
  | (k, v) :: rest, s =>
    match asNode v with
    | some child =>
      match recEval child s with
      | (.error e, s') => (.error e, s')
      | (.ok value, s') =>
        match resolveInputsAux recEval rest s' with
        | (.error e, s'') => (.error e, s'')
        | (.ok tail, s'') => (.ok ((k, value) :: tail), s'')
    | none =>
      match resolveInputsAux recEval rest s with
      | (.error e, s') => (.error e, s')
      | (.ok tail, s') => (.ok ((k, v) :: tail), s')

/-- The body of `compute_or_load_evaluation` (src/mldb/compgraph.py,
lines 344-430), with the recursive evaluation of argument nodes
abstracted as `recEval`.  Steps, in source order: memoization-cache
hit (line 375); `backend_interface.exists()` (line 385); if absent,
acquire the lock (line 387), resolve the keyword arguments (lines
388-393), invoke the function (line 398), save non-`None` results
(lines 404-410), release the lock; otherwise load (lines 412-418);
finally insert into the cache when `backend.cache_data` and the value
is not `None` (lines 420-423). -/
def computeOrLoadBody (env : Env)
    (recEval : NodeRef → EvalState → Except EvalErr PyVal × EvalState)
    (nd : NodeRef) (s : EvalState) : Except EvalErr PyVal × EvalState :=
  -- `if name in compute_or_load_evaluation.cache: return ...`
  match alookup nd.name s.cache with
  | some v => (.ok v, s)
  | none =>
    -- `if not backend_interface.exists():`
    let s := { s with trace := Event.existsCheck nd.name :: s.trace }
    if backendExists nd.backend nd.name s.store then
      -- load path
      match alookup nd.name s.store with
      | none => (.error .loadError, { s with trace := Event.loadEv nd.name :: s.trace })
      | some data =>
        let s := { s with trace := Event.loadEv nd.name :: s.trace }
        finishCache nd data s
    else
      -- `with backend_interface.lock():` — acquire
      if s.locks.contains nd.name then
        (.error .lockHeld, s)
      else
        let s := { s with locks := nd.name :: s.locks,
                          trace := Event.lockAcq nd.name :: s.trace }
        -- `inputs = kwargs.copy(); for key, value in kwargs.items(): ...`
        match resolveInputsAux recEval nd.kwargs s with
        | (.error e, s') => (.error e, releaseLock nd.name s')
        | (.ok inputs, s') =>
          -- `data = func(**inputs)`
          let s' := { s' with trace := Event.call nd.func :: s'.trace }
          match env.funcs nd.func inputs with
          | none => (.error .computationError, releaseLock nd.name s')
          | some data =>
            -- `if data is not None: backend_interface.save(data=data)`
            -- (`save` is a no-op for the volatile interface)
            let s' :=
              if isNone data then s'
              else
                match nd.backend.kind with
                | .persistent =>
                  { s' with store := (nd.name, data) :: s'.store,
                            trace := Event.saveEv nd.name :: s'.trace }
                | .volatile =>
                  { s' with trace := Event.saveEv nd.name :: s'.trace }
            finishCache nd data (releaseLock nd.name s')

/-- `compute_or_load_evaluation`, tying the open recursion with
explicit fuel (structural on `fuel`; Python's analogue of exhausting
the fuel on a cyclic graph is a stack overflow). -/
def computeOrLoad (env : Env) :
    Nat → NodeRef → EvalState → Except EvalErr PyVal × EvalState
  | 0, _, s => (.error EvalErr.fuelExhausted, s)
  | Nat.succ fuel, nd, s => computeOrLoadBody env (computeOrLoad env fuel) nd s

/-- The argument-resolution loop at a given fuel level. -/
def resolveInputs (env : Env) (fuel : Nat) :
    List (String × PyVal) → EvalState →
    Except EvalErr (List (String × PyVal)) × EvalState :=
  resolveInputsAux (computeOrLoad env fuel)

/-! ## The graph registry

`ComputationGraph` (src/mldb/compgraph.py, lines 17-260): a mapping
from backend name to `Backend` with a designated default, and a mapping
from node name to node.  Python raises `KeyError`/`TypeError`; the
error taxonomy of the spec names them `DuplicateBackend`,
`DuplicateNodeName` and `UnknownBackend`. -/

inductive GraphErr where
  | duplicateNodeName
  | duplicateBackend
  | unknownBackend
deriving DecidableEq, Repr

structure Graph where
  name : String
  backends : List (String × Backend)
  nodes : List (String × NodeRef)
  default_backend : Option String

/-- `ComputationGraph.set_default_backend` (lines 153-176): raises
`KeyError` when `backend_name` is not a key of `self.backends`.
(The `TypeError` branch for non-string names cannot arise here since
names are `String`s in the model.) -/
def set_default_backend (g : Graph) (backend_name : String) :
    Except GraphErr Graph :=
  if (alookup backend_name g.backends).isSome then
    .ok { g with default_backend := some backend_name }
  else
    .error GraphErr.unknownBackend

/-- `ComputationGraph.add_backend` (lines 121-151): raises `KeyError`
(`DuplicateBackend`) when the name is already registered; otherwise
registers the backend and optionally makes it the default. -/
def add_backend (g : Graph) (name : String) (backend : Backend)
    (make_default : Bool) : Except GraphErr Graph :=
  if (alookup name g.backends).isSome then
    .error GraphErr.duplicateBackend
  else
    let g' := { g with backends := g.backends ++ [(name, backend)] }
    if make_default then set_default_backend g' name else .ok g'

/-- `ComputationGraph.__init__` (lines 90-111): empty registries, then
`self.add_backend("none", VolatileBackend(), make_default=True)`.
The `add_backend` call cannot fail on the empty registry, so the
fallback branch is dead. -/
def ComputationGraph.init (name : String) : Graph :=
  let g0 : Graph := ⟨name.toLower, [], [], none⟩
  match add_backend g0 "none" VolatileBackend true with
  | .ok g => g
  | .error _ => g0

/-- The `backend` parameter of `make_node`: `None`, a backend name, or
a `Backend` instance (the docstring's `Union[Backend, str]`). -/
inductive BackendArg where
  | byName (s : String)
  | byInst (b : Backend)

/-- `ComputationGraph.make_node` (lines 201-260).  A `None` Python
`name` is replaced by a fresh uuid4 string before this point, so the
model takes the node name as given.  Order of operations follows the
source: duplicate-name check (lines 243-244), backend resolution
(lines 246-250: `self.backends[self.default_backend]` for `None`,
lookup for strings, instances used directly — the guard
`backend is not Backend` is `True` in all these cases), the
`cache=False` override to the `"none"` backend (lines 252-253),
construction, and registration when `collect` (lines 257-258). -/
def resolveBackendArg (g : Graph) (backend : Option BackendArg) :
    Except GraphErr Backend :=
  match backend with
  | none =>
    -- `backend = self.backends[self.default_backend]` (line 248)
    match g.default_backend with
    | none => .error GraphErr.unknownBackend
    | some d =>
      match alookup d g.backends with
      | none => .error GraphErr.unknownBackend
      | some b => .ok b
  | some (BackendArg.byName s) =>
    -- `backend = self.backends[backend]` (line 250)
    match alookup s g.backends with
    | none => .error GraphErr.unknownBackend
    | some b => .ok b
  | some (BackendArg.byInst b) => .ok b

def make_node (g : Graph) (func : FuncId) (name : String)
    (backend : Option BackendArg) (kwargs : List (String × PyVal))
    (cache : Bool) (collect : Bool) :
    Except GraphErr (Graph × NodeRef) :=
  if (alookup name g.nodes).isSome then
    .error GraphErr.duplicateNodeName
  else
    match resolveBackendArg g backend with
    | .error e => .error e
    | .ok b0 =>
      -- `if not cache: backend = self.backends["none"]` (lines 252-253)
      let bRes : Except GraphErr Backend :=
        if cache then .ok b0
        else
          match alookup "none" g.backends with
          | none => .error GraphErr.unknownBackend
          | some bn => .ok bn
      match bRes with
      | .error e => .error e
      | .ok b =>
        let node := NodeRef.mk name func b kwargs
        .ok (if collect then { g with nodes := g.nodes ++ [(name, node)] } else g,
             node)

/-- The graphs reachable from `ComputationGraph.__init__` by the
mutating registry operations. -/
inductive Reachable : Graph → Prop where
  | init (name : String) : Reachable (ComputationGraph.init name)
  | addBackend {g g' : Graph} (name : String) (b : Backend) (mk : Bool) :
      Reachable g → add_backend g name b mk = .ok g' → Reachable g'
  | setDefault {g g' : Graph} (name : String) :
      Reachable g → set_default_backend g name = .ok g' → Reachable g'
  | makeNode {g g' : Graph} {nd : NodeRef} (func : FuncId) (name : String)
      (barg : Option BackendArg) (kwargs : List (String × PyVal))
      (cache collect : Bool) :
      Reachable g → make_node g func name barg kwargs cache collect = .ok (g', nd) →
      Reachable g'

/-! ## File locks

Both lock implementations of the repository, over an explicit
filesystem state: which paths exist as files, which paths carry a held
exclusive `flock`, and which directories exist.  (The per-descriptor
identity of `flock` holders is abstracted to the path; the model is
exercised only where the releasing instance is the holder.) -/

structure FsState where
  files : List String
  flocked : List String
  dirs : List String

/-- Index just after the last `/` of a path (0 when there is none). -/
def afterLastSlash (cs : List Char) : Nat :=
  match cs.reverse.findIdx? (· = '/') with
  | none => 0
  | some j => cs.length - j

/-- The parent directory of a path (the portion before the last `/`). -/
def parentDir (p : String) : String :=
  let cs := p.toList
  match cs.reverse.findIdx? (· = '/') with
  | none => ""
  | some j => String.mk (cs.take (cs.length - 1 - j))

/-- `Path(p).with_suffix(".lock")` (src/mldb/locker.py, line 31): in
the final path component, the suffix (the part from the last dot,
provided the dot is not the leading character) is replaced by
`.lock`; a component without a suffix just gains `.lock`. -/
def withSuffixLock (p : String) : String :=
  let cs := p.toList
  let split := afterLastSlash cs
  let dir := cs.take split
  let nm := cs.drop split
  let stem :=
    match nm.reverse.findIdx? (· = '.') with
    | none => nm
    | some j =>
      let i := nm.length - 1 - j
      if 0 < i then nm.take i else nm
  String.mk (dir ++ stem) ++ ".lock"

inductive LockErr where
  /-- `FileNotFoundError`: the marker's parent location is missing
  (the spec's `LockUnavailable` condition). -/
  | fileNotFound
  /-- `FileLockExistsException` (the spec's `LockHeld` condition). -/
  | fileLockExists
deriving DecidableEq, Repr

/-- `mldb.locker.FileLock` (src/mldb/locker.py, lines 18-32):
`is_locked = False`, `lock_filename = Path(path).with_suffix(".lock")`. -/
structure FileLock where
  is_locked : Bool
  lock_filename : String
deriving DecidableEq, Repr

def FileLock.init (protected_file_path : String) : FileLock :=
  ⟨false, withSuffixLock protected_file_path⟩

/-- `FileLock.acquire` (src/mldb/locker.py, lines 47-63):
`open(self.lock_filename, "w")` raises `FileNotFoundError` when the
parent directory is missing and otherwise creates (or truncates) the
marker file; then `fcntl.flock(..., LOCK_EX | LOCK_NB)` raises
`IOError` — surfaced as `FileLockExistsException` — exactly when the
exclusive flock is already held on the marker. -/
def FileLock.acquire (l : FileLock) (fs : FsState) :
    Except LockErr Unit × FileLock × FsState :=
  if fs.dirs.contains (parentDir l.lock_filename) then
    let fs1 : FsState :=
      { fs with files := if fs.files.contains l.lock_filename then fs.files
                         else l.lock_filename :: fs.files }
    if fs1.flocked.contains l.lock_filename then
      (.error LockErr.fileLockExists, l, fs1)
    else
      (.ok (), { l with is_locked := true },
       { fs1 with flocked := l.lock_filename :: fs1.flocked })
  else
    (.error LockErr.fileNotFound, l, fs)

/-- `FileLock.release` (src/mldb/locker.py, lines 65-75): set
`is_locked = False`, `flock(LOCK_UN)`, then unlink the marker,
ignoring `FileNotFoundError`. -/
def FileLock.release (l : FileLock) (fs : FsState) : FileLock × FsState :=
  ( { l with is_locked := false },
    { fs with flocked := fs.flocked.erase l.lock_filename,
              files := fs.files.erase l.lock_filename } )

/-- The legacy `FileLock` of src/locker.py (lines 25-37):
`lockfile = f"{protected_file_path}.lock"`. -/
structure FileLockV0 where
  is_locked : Bool
  lockfile : String
deriving DecidableEq, Repr

def FileLockV0.init (protected_file_path : String) : FileLockV0 :=
  ⟨false, protected_file_path ++ ".lock"⟩

/-- `FileLock.acquire` of src/locker.py (lines 52-68):
`os.open(self.lockfile, O_CREAT | O_EXCL | O_RDWR)` raises
`FileNotFoundError` when the parent is missing (propagated unchanged)
and `FileExistsError` — surfaced as `FileLockExistsException` — when
the marker file already exists; otherwise the marker is created. -/
def FileLockV0.acquire (l : FileLockV0) (fs : FsState) :
    Except LockErr Unit × FileLockV0 × FsState :=
  if fs.dirs.contains (parentDir l.lockfile) then
    if fs.files.contains l.lockfile then
      (.error LockErr.fileLockExists, l, fs)
    else
      (.ok (), { l with is_locked := true },
       { fs with files := l.lockfile :: fs.files })
  else
    (.error LockErr.fileNotFound, l, fs)

/-! ## Concrete scenarios

The spec's concrete scenario (spec §8): `load()` returns
`[[1, 2, 3], [4, 5, 6]]`, `maxRow(data)` returns the row maxima
`[3, 6]`, node `M` depends on node `L` via `maxRow`.  Additional small
functions are used by the other scenarios: `echo` returns its `data`
argument unchanged, `pair` returns the list of its argument values in
order, `boom` always raises, `constN` return constants. -/

def loadData : PyVal :=
  .vlist [.vlist [.vint 1, .vint 2, .vint 3],
          .vlist [.vint 4, .vint 5, .vint 6]]

/-- Python `max` restricted to integers. -/
def pyMax : PyVal → PyVal → PyVal
  | .vint a, .vint b => .vint (max a b)
  | a, _ => a

/-- `max(row)` for a row of integers. -/
def rowMax : PyVal → PyVal
  | .vlist (x :: xs) => xs.foldl pyMax x
  | v => v

/-- `max_row(data) = [max(row) for row in data]`. -/
def maxRowFn (inputs : List (String × PyVal)) : Option PyVal :=
  match alookup "data" inputs with
  | some (.vlist rows) => some (.vlist (rows.map rowMax))
  | _ => none

def scenarioFuncs (f : FuncId) (inputs : List (String × PyVal)) :
    Option PyVal :=
  if f = "load" then some loadData
  else if f = "maxRow" then maxRowFn inputs
  else if f = "echo" then alookup "data" inputs
  else if f = "pair" then some (.vlist (inputs.map Prod.snd))
  else if f = "boom" then none
  else if f = "const7" then some (.vint 7)
  else if f = "const1" then some (.vint 1)
  else if f = "const2" then some (.vint 2)
  else none

def scenarioEnv : Env := ⟨scenarioFuncs⟩

/-- `[3, 6]`, the expected value of `M.evaluate()`. -/
def maxData : PyVal := .vlist [.vint 3, .vint 6]

/-- Node `L` over `load`, built with the default (volatile) backend. -/
def nodeL : NodeRef := .mk "L" "load" VolatileBackend []

/-- Node `M` over `maxRow`, depending on `L`, default backend. -/
def nodeM : NodeRef := .mk "M" "maxRow" VolatileBackend [("data", .vnode nodeL)]

/-- `L` bound to a persistent, result-caching backend. -/
def nodeLC : NodeRef := .mk "L" "load" PersistentBackend []

/-- `M` over `L`, both bound to a persistent, result-caching backend. -/
def nodeMC : NodeRef := .mk "M" "maxRow" PersistentBackend [("data", .vnode nodeLC)]

/-- Source node `A` shared by two sinks. -/
def nodeA : NodeRef := .mk "A" "load" PersistentBackend []

/-- Sink `B` over `A`. -/
def nodeB : NodeRef := .mk "B" "maxRow" PersistentBackend [("data", .vnode nodeA)]

/-- Sink `C` over `A`. -/
def nodeC : NodeRef := .mk "C" "maxRow" PersistentBackend [("data", .vnode nodeA)]

/-- A node wrapping `const7`. -/
def child7 : NodeRef := .mk "child7" "const7" VolatileBackend []

/-- A node whose named argument is a *sequence containing* a node
(the spec's recursive-argument-resolution scenario). -/
def nodeSeq : NodeRef :=
  .mk "P" "echo" VolatileBackend [("data", .vlist [.vnode child7])]

def childX : NodeRef := .mk "X" "const1" VolatileBackend []

def childY : NodeRef := .mk "Y" "const2" VolatileBackend []

/-- A node with two named arguments that are themselves nodes. -/
def nodePair : NodeRef :=
  .mk "Q" "pair" VolatileBackend [("a", .vnode childX), ("b", .vnode childY)]

/-- A node whose wrapped function always raises, bound to a
persistent backend. -/
def nodeBoom : NodeRef := .mk "F" "boom" PersistentBackend []

/-- A graph with a persistent backend registered as `"fs"`. -/
def gDemo : Graph :=
  match add_backend (ComputationGraph.init "g") "fs" PersistentBackend false with
  | .ok g => g
  | .error _ => ComputationGraph.init "g"

/-- `gDemo` with a node registered under `"n1"`. -/
def gDemo2 : Graph :=
  match make_node gDemo "load" "n1" none [] true true with
  | .ok (g, _) => g
  | .error _ => gDemo

/-! ## Supporting lemmas -/

theorem alookup_append_left {α : Type} (k : String) (l₁ l₂ : List (String × α))
    (h : (alookup k l₁).isSome = true) :
    alookup k (l₁ ++ l₂) = alookup k l₁ := by
  induction l₁ with
  | nil => simp [alookup] at h
  | cons kv rest ih =>
    obtain ⟨k', v⟩ := kv
    by_cases hk : k' = k
    · simp [alookup, hk]
    · simp only [alookup, hk, if_false, List.cons_append] at h ⊢
      exact ih h

theorem alookup_append_right {α : Type} (k : String) (l₁ l₂ : List (String × α))
    (h : alookup k l₁ = none) :
    alookup k (l₁ ++ l₂) = alookup k l₂ := by
  induction l₁ with
  | nil => rfl
  | cons kv rest ih =>
    obtain ⟨k', v⟩ := kv
    by_cases hk : k' = k
    · simp [alookup, hk] at h
    · simp only [alookup, hk, if_false, List.cons_append] at h ⊢
      exact ih h

/-- With duplicate-free keys, a key determines its value. -/
theorem keysNodup_val_eq {α : Type} {l : List (String × α)}
    (h : (l.map Prod.fst).Nodup) {k : String} {v₁ v₂ : α}
    (h₁ : (k, v₁) ∈ l) (h₂ : (k, v₂) ∈ l) : v₁ = v₂ := by
  induction l with
  | nil => cases h₁
  | cons kv rest ih =>
    simp only [List.map_cons, List.nodup_cons] at h
    rcases List.mem_cons.mp h₁ with h₁ | h₁ <;>
      rcases List.mem_cons.mp h₂ with h₂ | h₂
    · rw [← h₂] at h₁; exact congrArg Prod.snd h₁
    · exfalso
      apply h.1
      rw [← h₁]
      exact List.mem_map.mpr ⟨(k, v₂), h₂, rfl⟩
    · exfalso
      apply h.1
      rw [← h₂]
      exact List.mem_map.mpr ⟨(k, v₁), h₁, rfl⟩
    · exact ih h.2 h₁ h₂

theorem finishCache_fst (nd : NodeRef) (d : PyVal) (s : EvalState) :
    (finishCache nd d s).1 = .ok d := by
  unfold finishCache; split <;> rfl

theorem finishCache_locks (nd : NodeRef) (d : PyVal) (s : EvalState) :
    ((finishCache nd d s).2).locks = s.locks := by
  unfold finishCache; split <;> rfl

theorem finishCache_store (nd : NodeRef) (d : PyVal) (s : EvalState) :
    ((finishCache nd d s).2).store = s.store := by
  unfold finishCache; split <;> rfl

theorem finishCache_trace (nd : NodeRef) (d : PyVal) (s : EvalState) :
    ((finishCache nd d s).2).trace = s.trace := by
  unfold finishCache; split <;> rfl

/-- The argument-resolution loop never changes the set of held locks,
provided the child evaluator does not. -/
theorem resolveInputsAux_locks
    (recEval : NodeRef → EvalState → Except EvalErr PyVal × EvalState)
    (hrec : ∀ nd s, ((recEval nd s).2).locks = s.locks)
    (l : List (String × PyVal)) (s : EvalState) :
    ((resolveInputsAux recEval l s).2).locks = s.locks := by
  induction l generalizing s with
  | nil => rfl
  | cons kv rest ih =>
    obtain ⟨k, v⟩ := kv
    simp only [resolveInputsAux]
    cases hnode : asNode v with
    | some child =>
      dsimp only
      rcases h₁ : recEval child s with ⟨r, s'⟩
      have hl₁ : s'.locks = s.locks := by
        have := hrec child s; rw [h₁] at this; exact this
      cases r with
      | error e => simpa using hl₁
      | ok value =>
        dsimp only
        rcases h₂ : resolveInputsAux recEval rest s' with ⟨r₂, s''⟩
        have hl₂ : s''.locks = s'.locks := by
          have := ih s'; rw [h₂] at this; exact this
        cases r₂ <;> simp [hl₂, hl₁]
    | none =>
      dsimp only
      rcases h₂ : resolveInputsAux recEval rest s with ⟨r₂, s'⟩
      have hl₂ : s'.locks = s.locks := by
        have := ih s; rw [h₂] at this; exact this
      cases r₂ <;> simpa using hl₂

/-- A single pass of the evaluator body restores the lock set,
provided the child evaluator does: the lock taken for the compute
branch is released on every exit path. -/
theorem computeOrLoadBody_locks (env : Env)
    (recEval : NodeRef → EvalState → Except EvalErr PyVal × EvalState)
    (hrec : ∀ nd s, ((recEval nd s).2).locks = s.locks)
    (nd : NodeRef) (s : EvalState) :
    ((computeOrLoadBody env recEval nd s).2).locks = s.locks := by
  unfold computeOrLoadBody
  cases hc : alookup nd.name s.cache with
  | some v => rfl
  | none =>
    simp only []
    split
    · -- load path
      split
      · rfl
      · rw [finishCache_locks]
    · -- compute path
      split
      · rfl
      · rcases hres : resolveInputsAux recEval nd.kwargs
          { s with
            locks := nd.name :: s.locks,
            trace := Event.lockAcq nd.name :: Event.existsCheck nd.name :: s.trace }
          with ⟨r, s'⟩
        have hl : s'.locks = nd.name :: s.locks := by
          have := resolveInputsAux_locks recEval hrec nd.kwargs
            { s with
              locks := nd.name :: s.locks,
              trace := Event.lockAcq nd.name :: Event.existsCheck nd.name :: s.trace }
          rw [hres] at this
          exact this
        cases r with
        | error e =>
          simp [releaseLock, hl]
        | ok inputs =>
          cases hf : env.funcs nd.func inputs with
          | none =>
            simp [hf, releaseLock, hl]
          | some data =>
            simp only [hf]
            rw [finishCache_locks]
            simp only [releaseLock]
            split
            · simp [hl]
            · split <;> simp [hl]

/-- `compute_or_load_evaluation` never changes the set of held locks:
every lock it acquires is released on every exit path. -/
theorem computeOrLoad_locks (env : Env) (fuel : Nat) (nd : NodeRef)
    (s : EvalState) :
    ((computeOrLoad env fuel nd s).2).locks = s.locks := by
  induction fuel generalizing nd s with
  | zero => rfl
  | succ fuel ih =>
    exact computeOrLoadBody_locks env (computeOrLoad env fuel)
      (fun nd s => ih nd s) nd s

/-- A memoization-cache hit returns the cached value with the whole
state untouched (first branch of `compute_or_load_evaluation`). -/
theorem computeOrLoad_cacheHit (env : Env) (fuel : Nat) (nd : NodeRef)
    (s : EvalState) (v : PyVal) (h : alookup nd.name s.cache = some v) :
    computeOrLoad env (fuel + 1) nd s = (.ok v, s) := by
  show computeOrLoadBody env (computeOrLoad env fuel) nd s = (.ok v, s)
  unfold computeOrLoadBody
  rw [h]

/-- `ComputationGraph.__init__` produces exactly the graph with the
volatile backend under `"none"` as default. -/
theorem init_eq (n : String) :
    ComputationGraph.init n
      = ⟨n.toLower, [("none", VolatileBackend)], [], some "none"⟩ := rfl

/-- Successful `make_node` leaves the backend registry and the default
backend unchanged, and only ever appends to the node registry. -/
theorem make_node_ok_shape {g g' : Graph} {nd : NodeRef} {f : FuncId}
    {n : String} {barg : Option BackendArg} {kw : List (String × PyVal)}
    {c coll : Bool}
    (h : make_node g f n barg kw c coll = .ok (g', nd)) :
    g'.backends = g.backends ∧ g'.default_backend = g.default_backend
    ∧ alookup n g.nodes = none
    ∧ (g'.nodes = g.nodes ++ [(n, nd)] ∨ g'.nodes = g.nodes) := by
  unfold make_node at h
  split at h
  · cases h
  · next hdup =>
    have hfresh : alookup n g.nodes = none := by
      cases hl : alookup n g.nodes with
      | none => rfl
      | some x => rw [hl] at hdup; simp at hdup
    split at h
    · cases h
    · next b0 hb0 =>
      by_cases hc : c = true
      · simp only [hc, if_true] at h
        rw [Except.ok.injEq, Prod.mk.injEq] at h
        obtain ⟨h₁, h₂⟩ := h
        subst h₂
        refine ⟨?_, ?_, hfresh, ?_⟩ <;> rw [← h₁] <;>
          by_cases hcoll : coll = true <;> simp [hcoll]
      · simp only [hc] at h
        cases hn : alookup "none" g.backends with
        | none => rw [hn] at h; simp at h
        | some bn =>
          rw [hn] at h
          simp only [Bool.false_eq_true, if_false] at h
          rw [Except.ok.injEq, Prod.mk.injEq] at h
          obtain ⟨h₁, h₂⟩ := h
          subst h₂
          refine ⟨?_, ?_, hfresh, ?_⟩ <;> rw [← h₁] <;>
            by_cases hcoll : coll = true <;> simp [hcoll]

/-- Successful `add_backend` appends the new binding, preserving the
existing ones, and either keeps or redirects the default. -/
theorem add_backend_ok_shape {g g' : Graph} {n : String} {b : Backend}
    {mk : Bool} (h : add_backend g n b mk = .ok g') :
    g'.backends = g.backends ++ [(n, b)]
    ∧ (alookup n g.backends).isSome = false
    ∧ (g'.default_backend = g.default_backend ∨ g'.default_backend = some n) := by
  unfold add_backend set_default_backend at h
  split at h
  · cases h
  · next hdup =>
    have hfree : (alookup n g.backends).isSome = false := by simpa using hdup
    split at h
    · dsimp only at h
      split at h
      · injection h with h
        subst h
        exact ⟨rfl, hfree, Or.inr rfl⟩
      · cases h
    · injection h with h
      subst h
      exact ⟨rfl, hfree, Or.inl rfl⟩

/-- Successful `set_default_backend` only changes the default, to a
registered name. -/
theorem set_default_ok_shape {g g' : Graph} {n : String}
    (h : set_default_backend g n = .ok g') :
    g'.backends = g.backends ∧ g'.nodes = g.nodes
    ∧ g'.default_backend = some n
    ∧ (alookup n g.backends).isSome = true := by
  unfold set_default_backend at h
  split at h
  · next hn =>
    injection h with h
    subst h
    exact ⟨rfl, rfl, rfl, hn⟩
  · cases h

/-- Registry invariant of every reachable graph: the volatile backend
is registered under `"none"`, and the default backend name is always a
registered key. -/
theorem reachable_inv {g : Graph} (h : Reachable g) :
    alookup "none" g.backends = some VolatileBackend
    ∧ ∃ d, g.default_backend = some d ∧ (alookup d g.backends).isSome = true := by
  induction h with
  | init name =>
    rw [init_eq]
    exact ⟨rfl, "none", rfl, rfl⟩
  | @addBackend g₁ g₂ name b mk hr hok ih =>
    obtain ⟨hb, hfree, hdef⟩ := add_backend_ok_shape hok
    have hnone : alookup "none" g₂.backends = some VolatileBackend := by
      rw [hb, alookup_append_left _ _ _ (by rw [ih.1]; rfl), ih.1]
    refine ⟨hnone, ?_⟩
    rcases hdef with hdef | hdef
    · obtain ⟨d, hd, hds⟩ := ih.2
      refine ⟨d, by rw [hdef, hd], ?_⟩
      rw [hb, alookup_append_left _ _ _ hds]
      exact hds
    · refine ⟨name, hdef, ?_⟩
      rw [hb]
      cases hcur : alookup name g₁.backends with
      | some x => rw [alookup_append_left _ _ _ (by rw [hcur]; rfl), hcur]; rfl
      | none => rw [alookup_append_right _ _ _ hcur]; simp [alookup]
  | @setDefault g₁ g₂ name hr hok ih =>
    obtain ⟨hb, _, hdef, hreg⟩ := set_default_ok_shape hok
    exact ⟨by rw [hb]; exact ih.1, name, hdef, by rw [hb]; exact hreg⟩
  | @makeNode g₁ g₂ nd func name barg kwargs cache collect hr hok ih =>
    obtain ⟨hb, hdef, _, _⟩ := make_node_ok_shape hok
    obtain ⟨d, hd, hds⟩ := ih.2
    exact ⟨by rw [hb]; exact ih.1, d, by rw [hdef]; exact hd, by rw [hb]; exact hds⟩

/-- Shape of successful argument resolution: keys are preserved in
order, non-node entries pass through untouched, and each node entry is
replaced by a value obtained from evaluating that node. -/
theorem resolveInputsAux_shape
    (recEval : NodeRef → EvalState → Except EvalErr PyVal × EvalState)
    (l : List (String × PyVal)) (s s' : EvalState)
    (out : List (String × PyVal))
    (h : resolveInputsAux recEval l s = (.ok out, s')) :
    List.Forall₂ (fun kv kv' =>
      kv'.1 = kv.1 ∧
      ((asNode kv.2 = none ∧ kv'.2 = kv.2) ∨
       (∃ child t t', asNode kv.2 = some child
          ∧ recEval child t = (.ok kv'.2, t')))) l out := by
  induction l generalizing s s' out with
  | nil =>
    simp only [resolveInputsAux] at h
    rw [Prod.mk.injEq, Except.ok.injEq] at h
    rw [← h.1]
    exact List.Forall₂.nil
  | cons kv rest ih =>
    obtain ⟨k, v⟩ := kv
    simp only [resolveInputsAux] at h
    cases hnode : asNode v with
    | some child =>
      rw [hnode] at h
      dsimp only at h
      rcases h₁ : recEval child s with ⟨r, t⟩
      rw [h₁] at h
      cases r with
      | error e => cases h
      | ok value =>
        dsimp only at h
        rcases h₂ : resolveInputsAux recEval rest t with ⟨r₂, t₂⟩
        rw [h₂] at h
        cases r₂ with
        | error e => cases h
        | ok tail =>
          dsimp only at h
          rw [Prod.mk.injEq, Except.ok.injEq] at h
          rw [← h.1]
          exact List.Forall₂.cons
            ⟨rfl, Or.inr ⟨child, s, t, hnode, h₁⟩⟩
            (ih t t₂ tail h₂)
    | none =>
      rw [hnode] at h
      dsimp only at h
      rcases h₂ : resolveInputsAux recEval rest s with ⟨r₂, t₂⟩
      rw [h₂] at h
      cases r₂ with
      | error e => cases h
      | ok tail =>
        dsimp only at h
        rw [Prod.mk.injEq, Except.ok.injEq] at h
        rw [← h.1]
        exact List.Forall₂.cons
          ⟨rfl, Or.inl ⟨hnode, rfl⟩⟩
          (ih s t₂ tail h₂)

/-! ## Claims -/

/-- C7: for every invocation of `compute_or_load_evaluation` with a
name present in the memoization cache, the cached value is returned
immediately and no storage operation is performed: the evaluator
state — cache, store, held locks, and the event trace (hence no
`exists()`, `load()`, `save()`, or lock acquisition) — is returned
entirely unchanged. -/
theorem C7_cache_hit_short_circuits (env : Env) (fuel : Nat)
    (nd : NodeRef) (s : EvalState) (v : PyVal)
    (h : alookup nd.name s.cache = some v) :
    computeOrLoad env (fuel + 1) nd s = (.ok v, s) :=
  computeOrLoad_cacheHit env fuel nd s v h

/-- Witness for C7: a node whose name is cached evaluates to the
cached value with the state unchanged. -/
theorem C7_cache_hit_short_circuits_witness :
    alookup (NodeRef.mk "W" "load" VolatileBackend []).name
        (⟨[("W", PyVal.vint 5)], [], [], []⟩ : EvalState).cache
      = some (PyVal.vint 5)
  ∧ computeOrLoad scenarioEnv 4 (NodeRef.mk "W" "load" VolatileBackend [])
        ⟨[("W", PyVal.vint 5)], [], [], []⟩
      = (.ok (PyVal.vint 5), ⟨[("W", PyVal.vint 5)], [], [], []⟩) :=
  ⟨rfl, C7_cache_hit_short_circuits scenarioEnv 3
    (NodeRef.mk "W" "load" VolatileBackend [])
    ⟨[("W", PyVal.vint 5)], [], [], []⟩ (PyVal.vint 5) rfl⟩

/-- C5: registering a second node under a name already present fails
with `DuplicateNodeName` (`KeyError` in the source), registering a
second backend under an already-registered name fails with
`DuplicateBackend`, and a successful registration never overwrites an
existing node binding. -/
theorem C5_duplicate_registration_rejected
    (g : Graph) (f : FuncId) (n bn : String) (barg : Option BackendArg)
    (kw : List (String × PyVal)) (c coll : Bool) (b : Backend) (mk : Bool)
    (hn : (alookup n g.nodes).isSome = true)
    (hb : (alookup bn g.backends).isSome = true) :
    make_node g f n barg kw c coll = .error GraphErr.duplicateNodeName
  ∧ add_backend g bn b mk = .error GraphErr.duplicateBackend
  ∧ (∀ g' nd f' n' barg' kw' c' coll',
      make_node g f' n' barg' kw' c' coll' = .ok (g', nd) →
      ∀ k, (alookup k g.nodes).isSome = true →
        alookup k g'.nodes = alookup k g.nodes) := by
  refine ⟨?_, ?_, ?_⟩
  · unfold make_node
    simp [hn]
  · unfold add_backend
    simp [hb]
  · intro g' nd f' n' barg' kw' c' coll' hok k hk
    obtain ⟨_, _, _, hnodes⟩ := make_node_ok_shape hok
    rcases hnodes with hnodes | hnodes
    · rw [hnodes, alookup_append_left _ _ _ hk]
    · rw [hnodes]

/-- Witness for C5: on `gDemo2` (which has node `"n1"` and backend
`"fs"`), re-registering the node name and the backend name fails. -/
theorem C5_duplicate_registration_rejected_witness :
    (alookup "n1" gDemo2.nodes).isSome = true
  ∧ (alookup "fs" gDemo2.backends).isSome = true
  ∧ (make_node gDemo2 "maxRow" "n1" none [] true true
      = .error GraphErr.duplicateNodeName
     ∧ add_backend gDemo2 "fs" PersistentBackend false
      = .error GraphErr.duplicateBackend
     ∧ (∀ g' nd f' n' barg' kw' c' coll',
        make_node gDemo2 f' n' barg' kw' c' coll' = .ok (g', nd) →
        ∀ k, (alookup k gDemo2.nodes).isSome = true →
          alookup k g'.nodes = alookup k gDemo2.nodes)) :=
  ⟨rfl, rfl,
   C5_duplicate_registration_rejected gDemo2 "maxRow" "n1" "fs" none [] true
     true PersistentBackend false rfl rfl⟩

/-- C10: `sources` and `keywords` partition the node's argument
mapping: every `sources` entry is a node, no `keywords` entry is a
node, every argument entry belongs to exactly one of the two, and
(for the duplicate-free key sets a Python dict guarantees) no key
appears in both. -/
theorem C10_sources_keywords_partition (nd : NodeRef)
    (h : (nd.kwargs.map Prod.fst).Nodup) :
    (∀ kv ∈ nd.sources, isNodeVal kv.2 = true)
  ∧ (∀ kv ∈ nd.keywords, isNodeVal kv.2 = false)
  ∧ (∀ kv, kv ∈ nd.kwargs ↔ (kv ∈ nd.sources ∨ kv ∈ nd.keywords))
  ∧ (∀ k, ¬((∃ v, (k, v) ∈ nd.sources) ∧ (∃ v, (k, v) ∈ nd.keywords))) := by
  refine ⟨?_, ?_, ?_, ?_⟩
  · intro kv hkv
    exact (List.mem_filter.mp hkv).2
  · intro kv hkv
    have h2 := (List.mem_filter.mp hkv).2
    simpa using h2
  · intro kv
    constructor
    · intro hkv
      by_cases hnode : isNodeVal kv.2 = true
      · exact Or.inl (List.mem_filter.mpr ⟨hkv, hnode⟩)
      · refine Or.inr (List.mem_filter.mpr ⟨hkv, ?_⟩)
        simp [hnode]
    · rintro (hkv | hkv) <;> exact (List.mem_filter.mp hkv).1
  · rintro k ⟨⟨v₁, h₁⟩, ⟨v₂, h₂⟩⟩
    have hv₁ := List.mem_filter.mp h₁
    have hv₂ := List.mem_filter.mp h₂
    have hvv : v₁ = v₂ := keysNodup_val_eq h hv₁.1 hv₂.1
    subst hvv
    have t₁ := hv₁.2
    have t₂ := hv₂.2
    rw [t₁] at t₂
    simp at t₂

/-- Witness for C10: the partition on the concrete node `M`. -/
theorem C10_sources_keywords_partition_witness :
    (nodeM.kwargs.map Prod.fst).Nodup
  ∧ ((∀ kv ∈ nodeM.sources, isNodeVal kv.2 = true)
     ∧ (∀ kv ∈ nodeM.keywords, isNodeVal kv.2 = false)
     ∧ (∀ kv, kv ∈ nodeM.kwargs ↔ (kv ∈ nodeM.sources ∨ kv ∈ nodeM.keywords))
     ∧ (∀ k, ¬((∃ v, (k, v) ∈ nodeM.sources)
               ∧ (∃ v, (k, v) ∈ nodeM.keywords)))) :=
  ⟨by decide, C10_sources_keywords_partition nodeM (by decide)⟩

/-- Counterexample for C3: with the packaged flock-based lock
(src/mldb/locker.py), a pre-existing ("stale") marker file that no one
holds an flock on does *not* make `acquire()` fail: acquisition
succeeds even though the marker file for the path already exists. -/
theorem C3_stale_marker_acquire_succeeds :
    (⟨["/tmp/data.lock"], [], ["/tmp"]⟩ : FsState).files.contains
        (FileLock.init "/tmp/data.txt").lock_filename = true
  ∧ ((FileLock.init "/tmp/data.txt").acquire
        ⟨["/tmp/data.lock"], [], ["/tmp"]⟩).1 = .ok () :=
  ⟨rfl, rfl⟩

/-- C3 (amended): for the packaged `FileLock` (src/mldb/locker.py),
`acquire()` fails with `FileLockExistsException` exactly when the
exclusive flock on the marker is held by another holder, fails with
`FileNotFoundError` (the `LockUnavailable` condition) exactly when the
parent location is missing, and otherwise succeeds; the marker file is
created by the attempt whenever the parent exists — even a failing
one — so a merely pre-existing, un-flocked marker does not block
acquisition.  For the legacy `FileLock` of src/locker.py the original
claim does hold: `acquire()` fails with `FileLockExistsException`
exactly when the marker file already exists (parent present), fails
with `FileNotFoundError` when the parent is missing, and succeeds,
creating the marker, only when the marker does not already exist. -/
theorem C3_acquire_failure_conditions (p : String) (fs : FsState) :
    (((FileLock.init p).acquire fs).1 = .ok ()
      ↔ (fs.dirs.contains (parentDir (withSuffixLock p)) = true
         ∧ fs.flocked.contains (withSuffixLock p) = false))
  ∧ (((FileLock.init p).acquire fs).1 = .error LockErr.fileLockExists
      ↔ (fs.dirs.contains (parentDir (withSuffixLock p)) = true
         ∧ fs.flocked.contains (withSuffixLock p) = true))
  ∧ (((FileLock.init p).acquire fs).1 = .error LockErr.fileNotFound
      ↔ fs.dirs.contains (parentDir (withSuffixLock p)) = false)
  ∧ ((((FileLock.init p).acquire fs).2.2).files.contains (withSuffixLock p)
      = (fs.dirs.contains (parentDir (withSuffixLock p))
         || fs.files.contains (withSuffixLock p)))
  ∧ (((FileLockV0.init p).acquire fs).1 = .error LockErr.fileLockExists
      ↔ (fs.dirs.contains (parentDir (p ++ ".lock")) = true
         ∧ fs.files.contains (p ++ ".lock") = true))
  ∧ (((FileLockV0.init p).acquire fs).1 = .error LockErr.fileNotFound
      ↔ fs.dirs.contains (parentDir (p ++ ".lock")) = false)
  ∧ (((FileLockV0.init p).acquire fs).1 = .ok ()
      ↔ (fs.dirs.contains (parentDir (p ++ ".lock")) = true
         ∧ fs.files.contains (p ++ ".lock") = false))
  ∧ ((((FileLockV0.init p).acquire fs).2.2).files.contains (p ++ ".lock")
      = (fs.files.contains (p ++ ".lock")
         || fs.dirs.contains (parentDir (p ++ ".lock")))) := by
  unfold FileLock.init FileLock.acquire FileLockV0.init FileLockV0.acquire
  dsimp only
  by_cases hdir : fs.dirs.contains (parentDir (withSuffixLock p)) = true <;>
    by_cases hflock : fs.flocked.contains (withSuffixLock p) = true <;>
    by_cases hfile : fs.files.contains (withSuffixLock p) = true <;>
    by_cases hdir0 : fs.dirs.contains (parentDir (p ++ ".lock")) = true <;>
    by_cases hfile0 : fs.files.contains (p ++ ".lock") = true <;>
    simp_all

/-- C6: lock exclusion for two `FileLock` instances over the same
artifact path.  While the first instance holds the acquired lock,
every `acquire()` by the second fails with `FileLockExistsException`
(the `LockHeld` condition); after the first calls `release()`, an
`acquire()` by the second succeeds immediately. -/
theorem C6_lock_exclusion (p : String) (fs : FsState)
    (hdir : fs.dirs.contains (parentDir (withSuffixLock p)) = true)
    (hfree : fs.flocked.contains (withSuffixLock p) = false) :
    ∃ l₁ fs₁,
      (FileLock.init p).acquire fs = (.ok (), l₁, fs₁)
      ∧ ((FileLock.init p).acquire fs₁).1 = .error LockErr.fileLockExists
      ∧ ((FileLock.init p).acquire (l₁.release fs₁).2).1 = .ok () := by
  have hdir' : parentDir (withSuffixLock p) ∈ fs.dirs := by simpa using hdir
  have hfree' : withSuffixLock p ∉ fs.flocked := by simpa using hfree
  refine ⟨⟨true, withSuffixLock p⟩,
    ⟨(if fs.files.contains (withSuffixLock p) then fs.files
      else withSuffixLock p :: fs.files),
     withSuffixLock p :: fs.flocked, fs.dirs⟩, ?_, ?_, ?_⟩
  · unfold FileLock.init FileLock.acquire
    simp [hdir', hfree']
  · unfold FileLock.init FileLock.acquire
    simp [hdir']
  · unfold FileLock.init FileLock.acquire FileLock.release
    simp [hdir', hfree']

/-- Witness for C6, at the path `/tmp/data.txt` over an empty
filesystem containing only the parent directory. -/
theorem C6_lock_exclusion_witness :
    (⟨[], [], ["/tmp"]⟩ : FsState).dirs.contains
        (parentDir (withSuffixLock "/tmp/data.txt")) = true
  ∧ (⟨[], [], ["/tmp"]⟩ : FsState).flocked.contains
        (withSuffixLock "/tmp/data.txt") = false
  ∧ (∃ l₁ fs₁,
      (FileLock.init "/tmp/data.txt").acquire ⟨[], [], ["/tmp"]⟩
        = (.ok (), l₁, fs₁)
      ∧ ((FileLock.init "/tmp/data.txt").acquire fs₁).1
        = .error LockErr.fileLockExists
      ∧ ((FileLock.init "/tmp/data.txt").acquire (l₁.release fs₁).2).1
        = .ok ()) :=
  ⟨rfl, rfl, C6_lock_exclusion "/tmp/data.txt" ⟨[], [], ["/tmp"]⟩ rfl rfl⟩

/-- C9: every freshly constructed graph has the volatile backend
registered under `"none"` with the default backend set to `"none"`;
on every reachable graph the `"none"` binding persists (backends are
never removed), `add_backend` with the name `"none"` always fails with
`DuplicateBackend`, and `make_node` without a backend argument always
resolves to a registered default backend. -/
theorem C9_none_backend_always_registered (g : Graph) (h : Reachable g) :
    alookup "none" g.backends = some VolatileBackend
  ∧ (∀ n, (ComputationGraph.init n).default_backend = some "none"
      ∧ alookup "none" (ComputationGraph.init n).backends
          = some VolatileBackend)
  ∧ (∀ b mk, add_backend g "none" b mk = .error GraphErr.duplicateBackend)
  ∧ (∀ f n kw coll, alookup n g.nodes = none →
      ∃ d b g', g.default_backend = some d ∧ alookup d g.backends = some b
        ∧ make_node g f n none kw true coll
            = .ok (g', NodeRef.mk n f b kw)) := by
  obtain ⟨hnone, d, hd, hds⟩ := reachable_inv h
  refine ⟨hnone, ?_, ?_, ?_⟩
  · intro n
    rw [init_eq]
    exact ⟨rfl, rfl⟩
  · intro b mk
    unfold add_backend
    simp [hnone]
  · intro f n kw coll hfresh
    obtain ⟨b, hb⟩ := Option.isSome_iff_exists.mp hds
    refine ⟨d, b,
      (if coll then
        { g with nodes := g.nodes ++ [(n, NodeRef.mk n f b kw)] }
       else g), hd, hb, ?_⟩
    unfold make_node resolveBackendArg
    simp [hfresh, hd, hb]

/-- Witness for C9, on the freshly constructed graph named `"w9"`. -/
theorem C9_none_backend_always_registered_witness :
    Reachable (ComputationGraph.init "w9")
  ∧ (alookup "none" (ComputationGraph.init "w9").backends
      = some VolatileBackend
     ∧ (∀ n, (ComputationGraph.init n).default_backend = some "none"
        ∧ alookup "none" (ComputationGraph.init n).backends
            = some VolatileBackend)
     ∧ (∀ b mk, add_backend (ComputationGraph.init "w9") "none" b mk
        = .error GraphErr.duplicateBackend)
     ∧ (∀ f n kw coll,
        alookup n (ComputationGraph.init "w9").nodes = none →
        ∃ d b g',
          (ComputationGraph.init "w9").default_backend = some d
          ∧ alookup d (ComputationGraph.init "w9").backends = some b
          ∧ make_node (ComputationGraph.init "w9") f n none kw true coll
              = .ok (g', NodeRef.mk n f b kw))) :=
  ⟨Reachable.init "w9",
   C9_none_backend_always_registered (ComputationGraph.init "w9")
     (Reachable.init "w9")⟩

/-- C8: `make_node` with `cache=False` binds the node to the volatile
`"none"` backend even when a persistent backend was supplied
explicitly by instance or by registered name; consequently such a
node's `exists` is always false, its value is never inserted into the
memoization cache (the cache-insertion step is the identity for it),
and each `evaluate()` re-invokes the wrapped function (shown on a
concrete volatile node evaluated twice: two invocations, empty cache,
empty store). -/
theorem C8_cache_false_forces_volatile (g : Graph) (f : FuncId)
    (n bn : String) (kw : List (String × PyVal)) (coll : Bool)
    (b b' : Backend)
    (hnone : alookup "none" g.backends = some VolatileBackend)
    (hfresh : alookup n g.nodes = none)
    (hbn : alookup bn g.backends = some b') :
    make_node g f n (some (BackendArg.byInst b)) kw false coll
      = .ok ((if coll then
                { g with nodes := g.nodes ++ [(n, NodeRef.mk n f VolatileBackend kw)] }
              else g),
             NodeRef.mk n f VolatileBackend kw)
  ∧ make_node g f n (some (BackendArg.byName bn)) kw false coll
      = .ok ((if coll then
                { g with nodes := g.nodes ++ [(n, NodeRef.mk n f VolatileBackend kw)] }
              else g),
             NodeRef.mk n f VolatileBackend kw)
  ∧ (∀ nm st, backendExists VolatileBackend nm st = false)
  ∧ (∀ nd data s, nd.backend = VolatileBackend →
      finishCache nd data s = (.ok data, s))
  ∧ callCount
      (computeOrLoad scenarioEnv 4 (NodeRef.mk "n8" "load" VolatileBackend [])
        (computeOrLoad scenarioEnv 4 (NodeRef.mk "n8" "load" VolatileBackend [])
          initState).2).2.trace "load" = 2
  ∧ (computeOrLoad scenarioEnv 4 (NodeRef.mk "n8" "load" VolatileBackend [])
      (computeOrLoad scenarioEnv 4 (NodeRef.mk "n8" "load" VolatileBackend [])
        initState).2).2.cache = []
  ∧ (computeOrLoad scenarioEnv 4 (NodeRef.mk "n8" "load" VolatileBackend [])
      (computeOrLoad scenarioEnv 4 (NodeRef.mk "n8" "load" VolatileBackend [])
        initState).2).2.store = [] := by
  refine ⟨?_, ?_, fun nm st => rfl, ?_, rfl, rfl, rfl⟩
  · unfold make_node resolveBackendArg
    simp [hfresh, hnone]
  · unfold make_node resolveBackendArg
    simp [hfresh, hbn, hnone]
  · intro nd data s hnd
    unfold finishCache
    rw [hnd]
    rfl

/-- Witness for C8, on `gDemo` with the persistent backend `"fs"`. -/
theorem C8_cache_false_forces_volatile_witness :
    alookup "none" gDemo.backends = some VolatileBackend
  ∧ alookup "n8" gDemo.nodes = none
  ∧ alookup "fs" gDemo.backends = some PersistentBackend
  ∧ make_node gDemo "load" "n8" (some (BackendArg.byInst PersistentBackend))
        [] false true
      = .ok ({ gDemo with
                nodes := gDemo.nodes
                  ++ [("n8", NodeRef.mk "n8" "load" VolatileBackend [])] },
             NodeRef.mk "n8" "load" VolatileBackend []) := by
  refine ⟨rfl, rfl, rfl, ?_⟩
  have h := (C8_cache_false_forces_volatile gDemo "load" "n8" "fs" [] true
    PersistentBackend PersistentBackend rfl rfl rfl).1
  simpa using h

/-- Counterexample for C1: in the spec's concrete scenario — `load`
returning `[[1,2,3],[4,5,6]]`, `maxRow` over it, node `M` over node
`L`, built with the library's default (volatile, `cache_data=False`)
backend — both `M.evaluate()` calls do yield `[3, 6]`, but the second
call *re-invokes* both `load` and `maxRow`: after two evaluations each
wrapped function has been invoked twice, not at most once. -/
theorem C1_second_evaluate_reinvokes :
    (computeOrLoad scenarioEnv 4 nodeM initState).1 = .ok maxData
  ∧ (computeOrLoad scenarioEnv 4 nodeM
      (computeOrLoad scenarioEnv 4 nodeM initState).2).1 = .ok maxData
  ∧ callCount (computeOrLoad scenarioEnv 4 nodeM
      (computeOrLoad scenarioEnv 4 nodeM initState).2).2.trace "load" = 2
  ∧ callCount (computeOrLoad scenarioEnv 4 nodeM
      (computeOrLoad scenarioEnv 4 nodeM initState).2).2.trace "maxRow" = 2 :=
  ⟨rfl, rfl, rfl, rfl⟩

/-- C1 (amended): `M.evaluate()` yields `[3, 6]` and a second call
yields `[3, 6]` again; the wrapped functions are not re-invoked when
the nodes are bound to a result-caching backend (`cache_data=True`,
e.g. any persistent backend with its defaults) — under the library's
default volatile backend each call re-invokes them.  With such a
backend, a given node's function runs at most once per process
regardless of how many evaluate() calls or sink nodes reference it
(two sinks `B`, `C` over one source `A`: `A`'s function runs once
across `B.evaluate(); C.evaluate()`). -/
theorem C1_at_most_once_with_caching_backend :
    (computeOrLoad scenarioEnv 4 nodeMC initState).1 = .ok maxData
  ∧ (computeOrLoad scenarioEnv 4 nodeMC
      (computeOrLoad scenarioEnv 4 nodeMC initState).2).1 = .ok maxData
  ∧ callCount (computeOrLoad scenarioEnv 4 nodeMC
      (computeOrLoad scenarioEnv 4 nodeMC initState).2).2.trace "load" = 1
  ∧ callCount (computeOrLoad scenarioEnv 4 nodeMC
      (computeOrLoad scenarioEnv 4 nodeMC initState).2).2.trace "maxRow" = 1
  ∧ callCount (computeOrLoad scenarioEnv 4 nodeC
      (computeOrLoad scenarioEnv 4 nodeB initState).2).2.trace "load" = 1 :=
  ⟨rfl, rfl, rfl, rfl, rfl⟩

/-- Counterexample for C2: a node whose named argument is a *sequence
containing* another node does not have the nested node evaluated: the
wrapped function receives the raw sequence still containing the
unevaluated `NodeWrapper`, and the nested node's function is never
invoked.  (`nodeSeq` wraps `echo`, which returns its `data` argument
unchanged; the result still contains `child7` as a node.) -/
theorem C2_nested_nodes_not_resolved :
    (computeOrLoad scenarioEnv 4 nodeSeq initState).1
      = .ok (.vlist [.vnode child7])
  ∧ callCount (computeOrLoad scenarioEnv 4 nodeSeq initState).2.trace
      "const7" = 0 :=
  ⟨rfl, rfl⟩

/-- C2 (amended): during the compute path, only the arguments that are
*themselves* nodes are resolved: each such argument is evaluated
(depth-first) and replaced by its value, argument order and keys are
preserved, and every non-node argument — including sequences or
mappings that merely contain nodes — is passed through to the wrapped
function untouched.  Concretely, a node with two node-valued named
arguments evaluates both and passes their resolved values in order. -/
theorem C2_toplevel_args_resolved (env : Env) (fuel : Nat)
    (l : List (String × PyVal)) (s s' : EvalState)
    (out : List (String × PyVal))
    (h : resolveInputs env fuel l s = (.ok out, s')) :
    List.Forall₂ (fun kv kv' =>
      kv'.1 = kv.1 ∧
      ((asNode kv.2 = none ∧ kv'.2 = kv.2) ∨
       (∃ child t t', asNode kv.2 = some child
          ∧ computeOrLoad env fuel child t = (.ok kv'.2, t')))) l out
  ∧ (computeOrLoad scenarioEnv 4 nodePair initState).1
      = .ok (.vlist [.vint 1, .vint 2])
  ∧ callCount (computeOrLoad scenarioEnv 4 nodePair initState).2.trace
      "const1" = 1
  ∧ callCount (computeOrLoad scenarioEnv 4 nodePair initState).2.trace
      "const2" = 1 :=
  ⟨resolveInputsAux_shape (computeOrLoad env fuel) l s s' out h,
   rfl, rfl, rfl⟩

/-- Witness for C2 (amended): resolving the single node-valued
argument `("a", childX)` replaces it by the evaluated value `1`. -/
theorem C2_toplevel_args_resolved_witness :
    resolveInputs scenarioEnv 3 [("a", PyVal.vnode childX)] initState
      = (.ok [("a", PyVal.vint 1)],
         ⟨[], [], [],
          [Event.lockRel "X", Event.saveEv "X", Event.call "const1",
           Event.lockAcq "X", Event.existsCheck "X"]⟩)
  ∧ (List.Forall₂ (fun kv kv' =>
      kv'.1 = kv.1 ∧
      ((asNode kv.2 = none ∧ kv'.2 = kv.2) ∨
       (∃ child t t', asNode kv.2 = some child
          ∧ computeOrLoad scenarioEnv 3 child t = (.ok kv'.2, t'))))
      [("a", PyVal.vnode childX)] [("a", PyVal.vint 1)]
     ∧ (computeOrLoad scenarioEnv 4 nodePair initState).1
        = .ok (.vlist [.vint 1, .vint 2])
     ∧ callCount (computeOrLoad scenarioEnv 4 nodePair initState).2.trace
        "const1" = 1
     ∧ callCount (computeOrLoad scenarioEnv 4 nodePair initState).2.trace
        "const2" = 1) :=
  ⟨rfl,
   C2_toplevel_args_resolved scenarioEnv 3 [("a", PyVal.vnode childX)]
     initState
     ⟨[], [], [],
      [Event.lockRel "X", Event.saveEv "X", Event.call "const1",
       Event.lockAcq "X", Event.existsCheck "X"]⟩
     [("a", PyVal.vint 1)] rfl⟩

/-- C4: when the wrapped function raises during the compute path, the
error propagates to the caller unchanged, `save()` is never executed
(the final store is exactly the post-argument-resolution store, and
the trace gains only the invocation and the lock release — no save
event), no entry for the node's name is inserted into the memoization
cache (the final cache is exactly the post-resolution cache), and the
lock taken for the node is released (the final lock set is the
original one).  On the concrete failing node `nodeBoom`
(persistent backend, function always raises): the evaluation errors,
`exists()` remains false, cache/store/locks stay empty, and a second
`evaluate()` re-attempts the computation from scratch (two
invocations after two calls). -/
theorem C4_failure_leaves_no_artifact (env : Env) (fuel : Nat)
    (nd : NodeRef) (s s₂ : EvalState) (ins : List (String × PyVal))
    (hcache : alookup nd.name s.cache = none)
    (hex : backendExists nd.backend nd.name s.store = false)
    (hlock : s.locks.contains nd.name = false)
    (hres : resolveInputs env fuel nd.kwargs
        ⟨s.cache, s.store, nd.name :: s.locks,
         Event.lockAcq nd.name :: Event.existsCheck nd.name :: s.trace⟩
        = (.ok ins, s₂))
    (hfail : env.funcs nd.func ins = none) :
    computeOrLoad env (fuel + 1) nd s
      = (.error EvalErr.computationError,
         ⟨s₂.cache, s₂.store, s.locks,
          Event.lockRel nd.name :: Event.call nd.func :: s₂.trace⟩)
  ∧ (computeOrLoad scenarioEnv 4 nodeBoom initState).1
      = .error EvalErr.computationError
  ∧ (computeOrLoad scenarioEnv 4 nodeBoom initState).2.cache = []
  ∧ (computeOrLoad scenarioEnv 4 nodeBoom initState).2.store = []
  ∧ (computeOrLoad scenarioEnv 4 nodeBoom initState).2.locks = []
  ∧ backendExists nodeBoom.backend nodeBoom.name
      (computeOrLoad scenarioEnv 4 nodeBoom initState).2.store = false
  ∧ callCount (computeOrLoad scenarioEnv 4 nodeBoom
      (computeOrLoad scenarioEnv 4 nodeBoom initState).2).2.trace
      "boom" = 2 := by
  refine ⟨?_, rfl, rfl, rfl, rfl, rfl, rfl⟩
  unfold resolveInputs at hres
  have hl : s₂.locks = nd.name :: s.locks := by
    have hinv := resolveInputsAux_locks (computeOrLoad env fuel)
      (fun nd' s' => computeOrLoad_locks env fuel nd' s') nd.kwargs
      ⟨s.cache, s.store, nd.name :: s.locks,
       Event.lockAcq nd.name :: Event.existsCheck nd.name :: s.trace⟩
    rw [hres] at hinv
    exact hinv
  show computeOrLoadBody env (computeOrLoad env fuel) nd s = _
  unfold computeOrLoadBody
  rw [hcache]
  try dsimp only
  rw [hex]
  try dsimp only
  rw [hlock]
  try dsimp only
  rw [hres]
  try dsimp only
  rw [hfail]
  try dsimp only
  unfold releaseLock
  rw [hl]
  rw [List.erase_cons_head]
  simp

/-- Witness for C4, instantiated at the concrete failing node
`nodeBoom` evaluated from a fresh process state. -/
theorem C4_failure_leaves_no_artifact_witness :
    alookup nodeBoom.name initState.cache = none
  ∧ backendExists nodeBoom.backend nodeBoom.name initState.store = false
  ∧ initState.locks.contains nodeBoom.name = false
  ∧ resolveInputs scenarioEnv 3 nodeBoom.kwargs
      ⟨initState.cache, initState.store, nodeBoom.name :: initState.locks,
       Event.lockAcq nodeBoom.name
         :: Event.existsCheck nodeBoom.name :: initState.trace⟩
      = (.ok [],
         ⟨initState.cache, initState.store,
          nodeBoom.name :: initState.locks,
          Event.lockAcq nodeBoom.name
            :: Event.existsCheck nodeBoom.name :: initState.trace⟩)
  ∧ scenarioEnv.funcs nodeBoom.func [] = none
  ∧ computeOrLoad scenarioEnv 4 nodeBoom initState
      = (.error EvalErr.computationError,
         ⟨initState.cache, initState.store, initState.locks,
          Event.lockRel nodeBoom.name :: Event.call nodeBoom.func
            :: Event.lockAcq nodeBoom.name
            :: Event.existsCheck nodeBoom.name :: initState.trace⟩) :=
  ⟨rfl, rfl, rfl, rfl, rfl,
   (C4_failure_leaves_no_artifact scenarioEnv 3 nodeBoom initState
     ⟨initState.cache, initState.store, nodeBoom.name :: initState.locks,
      Event.lockAcq nodeBoom.name
        :: Event.existsCheck nodeBoom.name :: initState.trace⟩
     [] rfl rfl rfl rfl rfl).1⟩

end Mldb
